import Mathlib

/-!
Shallow embedding of the demo notebook `demo.ipynb` of the FusionEnergy
repository.  The notebook is a linear script that loads three CSV files,
uploads a dataset to a remote surrogate-modelling service, trains an
emulator, predicts, plots, and deletes the remote resources.  We embed the
script as a trace of events over abstract CSV contents (a CSV file is a
list of lines, each line a list of cell strings).  The twinlab client and
the remote service are not part of the repository; the shape of the remote
predict operation is modelled from the spec where a claim needs it.
-/

namespace FusionDemo

/-- A tabular value, as produced by `pd.read_csv`: named columns and a list
of data rows. -/
structure Table where
  cols : List String
  rows : List (List String)
deriving DecidableEq, Repr

/-- Data sources that local display/plot operations read. -/
inductive PlotSrc where
  | trainData
  | evalData
  | gridData
  | meanPred
  | stdPred
deriving DecidableEq, Repr

/-- The remote-service calls the notebook issues (cells 9, 11, 13, 16, 18,
20, 22, 28, 30). -/
inductive RemoteCall where
  | uploadDataset (datasetId : String) (payload : Table)
  | listDatasets
  | summariseDataset (datasetId : String)
  | train (emulatorId datasetId : String) (ins outs : List String)
      (params : List (String × String))
  | listEmulators
  | summariseEmulator (emulatorId : String)
  | predict (emulatorId : String) (input : Table)
  | deleteEmulator (emulatorId : String)
  | deleteDataset (datasetId : String)
deriving DecidableEq, Repr

/-- Observable events of a script execution.  `writeFile` never occurs in
the notebook; it is part of the event vocabulary so that "the script writes
nothing to disk" is a statement about the actual trace. -/
inductive Event where
  | loadCsv (path : String)
  | display (src : PlotSrc)
  | plotCurve (label : String) (reads : List PlotSrc)
  | writeFile (path : String) (src : PlotSrc)
  | remote (call : RemoteCall)
deriving DecidableEq, Repr

/-- Model of `os.path.join` for POSIX paths: the second component replaces
the path when absolute, otherwise a single separator is inserted. -/
def osPathJoin (a b : String) : String :=
  if b.data.head? = some '/' then b
  else if a.data = [] ∨ a.data.getLast? = some '/' then a ++ b
  else a ++ "/" ++ b

/-- Cell 4: `file_train = os.path.join("resources", "datasets", "ukaea_big.csv")`. -/
def file_train : String := osPathJoin (osPathJoin "resources" "datasets") "ukaea_big.csv"

/-- Cell 4: `emulator_dir = os.path.join("resources", "campaigns", "ukaea")`. -/
def emulator_dir : String := osPathJoin (osPathJoin "resources" "campaigns") "ukaea"

/-- Cell 4: `file_grid = os.path.join(emulator_dir, "grid.csv")`. -/
def file_grid : String := osPathJoin emulator_dir "grid.csv"

/-- Cell 4: `file_eval = os.path.join(emulator_dir, "test.csv")`. -/
def file_eval : String := osPathJoin emulator_dir "test.csv"

/-- Cell 4: `dataset_id = "tritium_desorption"`. -/
def dataset_id : String := "tritium_desorption"

/-- Cell 16: `emulator_id = dataset_id`. -/
def emulator_id : String := dataset_id

/-- Cells 14 and 16: `inputs = ["E1", "E2", "E3", "n1", "n2"]`. -/
def inputs : List String := ["E1", "E2", "E3", "n1", "n2"]

/-- Model of `pd.read_csv` with the default header: the first line of the
file is the header naming the columns, the remaining lines are data rows. -/
def readCsv (lines : List (List String)) : Table :=
  { cols := lines.headD [], rows := lines.tail }

/-- Model of `pd.read_csv(..., header=None)`: every line of the file is a
data row and pandas numbers the columns 0, 1, 2, ... itself. -/
def readCsvNoHeader (lines : List (List String)) : Table :=
  { cols := (List.range (lines.headD []).length).map (fun i => toString i),
    rows := lines }

/-- Model of `df.iloc[:n, :]`: the first `n` rows, all columns. -/
def ilocRows (t : Table) (n : Nat) : Table :=
  { cols := t.cols, rows := t.rows.take n }

/-- Cell 6: `df_train = pd.read_csv(file_train).iloc[:1000,:]`. -/
def df_train (trainLines : List (List String)) : Table :=
  ilocRows (readCsv trainLines) 1000

/-- Cell 6: `df_eval = pd.read_csv(file_eval)`. -/
def df_eval (evalLines : List (List String)) : Table :=
  readCsv evalLines

/-- Cell 6: `df_grid = pd.read_csv(file_grid, header=None)`. -/
def df_grid (gridLines : List (List String)) : Table :=
  readCsvNoHeader gridLines

/-- Cells 14 and 16: `outputs = [f"y{i}" for i in range(len(df_grid))]`;
`len(df_grid)` is the number of rows of the grid table. -/
def outputs (g : Table) : List String :=
  (List.range g.rows.length).map (fun i => "y" ++ toString i)

/-- Cell 16: `tl.TrainParams(output_explained_variance=0.9, train_test_ratio=0.5)`,
kept as opaque key/value pairs; the hyperparameters are consumed only by the
remote service. -/
def trainParams : List (String × String) :=
  [("output_explained_variance", "0.9"), ("train_test_ratio", "0.5")]

/-- Cell 26: `grid = df_grid.iloc[:, 0]`, the first column of the grid
table, used as the temperature axis of the results plot. -/
def plotGrid (g : Table) : List String :=
  g.rows.map (fun r => r.headD "")

/-- Modelled from the spec: the remote operation
`predict(emulator_id, input_table) -> (mean_table, std_table)` returning
"a pair of tables (mean, standard deviation) aligned by output column and
by input row".  The twinlab client and the service computing the numbers
are not part of this repository, so the numerical cell values are
placeholders; only the shape (columns = the emulator's declared outputs,
one row per input row) is modelled. -/
def predictModel (outs : List String) (input : Table) : Table × Table :=
  ({ cols := outs, rows := input.rows.map (fun _ => outs.map (fun _ => "mean")) },
   { cols := outs, rows := input.rows.map (fun _ => outs.map (fun _ => "std")) })

/-- Cell 22: `df_mean, df_std = emulator.predict(df_eval, ...)`, first
component. -/
def df_mean (evalLines gridLines : List (List String)) : Table :=
  (predictModel (outputs (df_grid gridLines)) (df_eval evalLines)).1

/-- Cell 22: second component of the prediction. -/
def df_std (evalLines gridLines : List (List String)) : Table :=
  (predictModel (outputs (df_grid gridLines)) (df_eval evalLines)).2

/-- Cell 24: the keys of `ys`, `f"y{i}" for i in [0, 100, 150]`. -/
def ys_keys : List String := [0, 100, 150].map (fun i => "y" ++ toString i)

/-- Cell 24: one errorbar curve ("Model", reading the evaluation inputs and
the two prediction tables) and one scatter curve ("Training data") per
(y, x) subplot pair. -/
def examplesPlotEvents : List Event :=
  ys_keys.flatMap (fun _ =>
    inputs.flatMap (fun _ =>
      [Event.plotCurve "Model" [PlotSrc.evalData, PlotSrc.meanPred, PlotSrc.stdPred],
       Event.plotCurve "Training data" [PlotSrc.trainData]]))

/-- Cell 26: `plot_eval = True`. -/
def plot_eval : Bool := true

/-- Cell 26: `plot_model_mean = True`. -/
def plot_model_mean : Bool := true

/-- Cell 26: `plot_model_bands = True`. -/
def plot_model_bands : Bool := true

/-- Cell 26: `plot_model_blur = False`. -/
def plot_model_blur : Bool := false

/-- Cell 26: `nsigs = [1, 2]`. -/
def nsigs : List Nat := [1, 2]

/-- Cell 26: `number_of_training_examples = 0`. -/
def number_of_training_examples : Nat := 0

/-- Cell 26: `number_of_model_examples = 5`. -/
def number_of_model_examples : Nat := 5

/-- Cell 26, the results plot: a label-only band when bands or blur are on
without the mean, then curves for the training examples, then per model
example the guarded "Test data" truth curve, the sigma bands, the blur
bands, and the mean curve, exactly in the source's order.  The guard of the
truth curve compares `file_eval` (built with `os.path.join`) against
`emulator_dir + "test.csv"` (plain concatenation). -/
def resultsPlotEvents : List Event :=
  (if (plot_model_blur || plot_model_bands) && !plot_model_mean then
    [Event.plotCurve "Model predictions" []] else [])
  ++ (List.range number_of_training_examples).flatMap (fun _ =>
      [Event.plotCurve "Example training data" [PlotSrc.gridData, PlotSrc.trainData]])
  ++ (List.range number_of_model_examples).flatMap (fun _ =>
      (if plot_eval && (file_eval == emulator_dir ++ "test.csv") then
        [Event.plotCurve "Test data" [PlotSrc.gridData, PlotSrc.evalData]] else [])
      ++ (if plot_model_bands then
          nsigs.flatMap (fun _ =>
            [Event.plotCurve "Model predictions"
              [PlotSrc.gridData, PlotSrc.meanPred, PlotSrc.stdPred]]) else [])
      ++ (if plot_model_blur && !plot_model_bands then
          [Event.plotCurve "Model predictions"
            [PlotSrc.gridData, PlotSrc.meanPred, PlotSrc.stdPred]] else [])
      ++ (if plot_model_mean then
          [Event.plotCurve "Model predictions" [PlotSrc.gridData, PlotSrc.meanPred]]
          else []))

/-- The full event trace of the notebook run top to bottom, parameterised
by the contents of the three CSV files.  Cell order: 6 (three loads and a
display of the training table), 9 (upload), 11 (list datasets), 13
(dataset summarise), 16 (train), 18 (list emulators), 20 (emulator
summarise), 22 (predict and two displays), 24 (example plots), 26 (results
plot), 28 (delete emulator), 30 (delete dataset). -/
def scriptTrace (trainLines evalLines gridLines : List (List String)) : List Event :=
  [Event.loadCsv file_train,
   Event.loadCsv file_eval,
   Event.loadCsv file_grid,
   Event.display PlotSrc.trainData,
   Event.remote (RemoteCall.uploadDataset dataset_id (df_train trainLines)),
   Event.remote RemoteCall.listDatasets,
   Event.remote (RemoteCall.summariseDataset dataset_id),
   Event.remote (RemoteCall.train emulator_id dataset_id inputs
     (outputs (df_grid gridLines)) trainParams),
   Event.remote RemoteCall.listEmulators,
   Event.remote (RemoteCall.summariseEmulator emulator_id),
   Event.remote (RemoteCall.predict emulator_id (df_eval evalLines)),
   Event.display PlotSrc.meanPred,
   Event.display PlotSrc.stdPred]
  ++ examplesPlotEvents
  ++ resultsPlotEvents
  ++ [Event.remote (RemoteCall.deleteEmulator emulator_id),
      Event.remote (RemoteCall.deleteDataset dataset_id)]

/-- The nine remote call sites of the script, one constructor per site,
used to count how often each call is issued. -/
inductive CallKind where
  | uploadDataset
  | listDatasets
  | summariseDataset
  | train
  | listEmulators
  | summariseEmulator
  | predict
  | deleteEmulator
  | deleteDataset
deriving DecidableEq, Repr

/-- The call site of a remote call. -/
def kindOf : RemoteCall → CallKind
  | RemoteCall.uploadDataset _ _ => CallKind.uploadDataset
  | RemoteCall.listDatasets => CallKind.listDatasets
  | RemoteCall.summariseDataset _ => CallKind.summariseDataset
  | RemoteCall.train _ _ _ _ _ => CallKind.train
  | RemoteCall.listEmulators => CallKind.listEmulators
  | RemoteCall.summariseEmulator _ => CallKind.summariseEmulator
  | RemoteCall.predict _ _ => CallKind.predict
  | RemoteCall.deleteEmulator _ => CallKind.deleteEmulator
  | RemoteCall.deleteDataset _ => CallKind.deleteDataset

/-- How many events of a trace issue the given remote call site. -/
def countKind (k : CallKind) (tr : List Event) : Nat :=
  tr.countP (fun e =>
    match e with
    | Event.remote c => kindOf c == k
    | _ => false)

/-- The step of the spec's eight-step observable flow an event belongs to:
CSV loads are step 1, the upload step 2, dataset listing and inspection
step 3, the training request step 4, training-status inspection step 5,
the prediction request step 6, plotting step 7, and the deletions step 8.
Screen displays of tables are neither remote-service nor file operations
and carry no step. -/
def specStep : Event → Option Nat
  | Event.loadCsv _ => some 1
  | Event.display _ => none
  | Event.plotCurve _ _ => some 7
  | Event.writeFile _ _ => none
  | Event.remote c =>
    match c with
    | RemoteCall.uploadDataset _ _ => some 2
    | RemoteCall.listDatasets => some 3
    | RemoteCall.summariseDataset _ => some 3
    | RemoteCall.train _ _ _ _ _ => some 4
    | RemoteCall.listEmulators => some 5
    | RemoteCall.summariseEmulator _ => some 5
    | RemoteCall.predict _ _ => some 6
    | RemoteCall.deleteEmulator _ => some 8
    | RemoteCall.deleteDataset _ => some 8

/-- Execution of a list of events under a failure oracle telling, for each
remote call in issue order, whether it raises.  Local events always
succeed.  The notebook installs no exception handler, so a raising remote
call ends the execution there: the produced trace stops at the raising
call and the raised error is reported as the script's outcome. -/
def runEvents (fail : Nat → Bool) : List Event → Nat → List Event × Option RemoteCall
  | [], _ => ([], none)
  | Event.remote c :: es, k =>
    if fail k then ([Event.remote c], some c)
    else
      let p := runEvents fail es (k + 1)
      (Event.remote c :: p.1, p.2)
  | e :: es, k =>
    let p := runEvents fail es k
    (e :: p.1, p.2)

/-- A run of the whole notebook under a failure oracle. -/
def runScript (fail : Nat → Bool) (trainLines evalLines gridLines : List (List String)) :
    List Event × Option RemoteCall :=
  runEvents fail (scriptTrace trainLines evalLines gridLines) 0

/-- Tables an event transmits to the remote service: the upload payload and
the prediction input; every other event sends none. -/
def sentTables : Event → List Table
  | Event.remote (RemoteCall.uploadDataset _ payload) => [payload]
  | Event.remote (RemoteCall.predict _ input) => [input]
  | _ => []

/-- Whether an event writes a file to disk. -/
def writesDisk : Event → Bool
  | Event.writeFile _ _ => true
  | _ => false

/-- Whether an event reads either of the two prediction tables. -/
def usesPrediction : Event → Bool
  | Event.display src => src == PlotSrc.meanPred || src == PlotSrc.stdPred
  | Event.plotCurve _ reads =>
    reads.any (fun s => s == PlotSrc.meanPred || s == PlotSrc.stdPred)
  | Event.writeFile _ src => src == PlotSrc.meanPred || src == PlotSrc.stdPred
  | _ => false

/-- Whether an event is a purely local view of data: a screen display or a
plotted curve. -/
def isLocalView : Event → Bool
  | Event.display _ => true
  | Event.plotCurve _ _ => true
  | _ => false

/-- Whether an event is the script's prediction request. -/
def isPredictEvent : Event → Bool
  | Event.remote (RemoteCall.predict _ _) => true
  | _ => false

/-- The events of a trace strictly after its prediction request. -/
def afterPredict (tr : List Event) : List Event :=
  (tr.dropWhile (fun e => !(isPredictEvent e))).drop 1

/-- Whether an event operates on (or references) the dataset with the given
identifier: its upload, its summarisation, the training request that names
it, and its deletion. -/
def datasetOp (id : String) : Event → Bool
  | Event.remote (RemoteCall.uploadDataset d _) => d == id
  | Event.remote (RemoteCall.summariseDataset d) => d == id
  | Event.remote (RemoteCall.train _ d _ _ _) => d == id
  | Event.remote (RemoteCall.deleteDataset d) => d == id
  | _ => false

/-- Whether an event creates the dataset with the given identifier (only
the upload does). -/
def createsDataset (id : String) : Event → Bool
  | Event.remote (RemoteCall.uploadDataset d _) => d == id
  | _ => false

/-- Whether an event destroys the dataset with the given identifier (only
the explicit delete does). -/
def destroysDataset (id : String) : Event → Bool
  | Event.remote (RemoteCall.deleteDataset d) => d == id
  | _ => false

/-- Whether an event operates on the emulator with the given identifier:
the training request creating it, the emulator listing, its summarisation,
the prediction request consuming it, and its deletion. -/
def emulatorOp (id : String) : Event → Bool
  | Event.remote (RemoteCall.train e _ _ _ _) => e == id
  | Event.remote RemoteCall.listEmulators => true
  | Event.remote (RemoteCall.summariseEmulator e) => e == id
  | Event.remote (RemoteCall.predict e _) => e == id
  | Event.remote (RemoteCall.deleteEmulator e) => e == id
  | _ => false

/-- Whether an event creates the emulator with the given identifier (only
the training request does). -/
def createsEmulator (id : String) : Event → Bool
  | Event.remote (RemoteCall.train e _ _ _ _) => e == id
  | _ => false

/-- Whether an event destroys the emulator with the given identifier (only
the explicit delete does). -/
def destroysEmulator (id : String) : Event → Bool
  | Event.remote (RemoteCall.deleteEmulator e) => e == id
  | _ => false

/-- The columns the training request declares: the five material inputs and
the grid-indexed outputs. -/
def declaredColumns (g : Table) : List String :=
  inputs ++ outputs g

/-- Whether, at the time the training request is issued, every declared
input and output column is a column of the table that was uploaded as the
dataset. -/
def columnsPresentAtTrain (trainLines gridLines : List (List String)) : Bool :=
  (declaredColumns (df_grid gridLines)).all
    (fun c => (df_train trainLines).cols.contains c)

/-- Whether an event draws the evaluation-truth curve of the results plot
(the curve legend-labelled "Test data"). -/
def isTestDataCurve : Event → Bool
  | Event.plotCurve l _ => l == "Test data"
  | _ => false

/-- All tables a trace transmits to the remote service, in order. -/
def sentToRemote (tr : List Event) : List Table :=
  tr.flatMap sentTables

/-- The spec-flow steps of the complete script trace: loads (1), upload
(2), dataset listing and summarisation (3), training (4), training-status
inspection (5), prediction (6), the 45 plotted curves (7), deletions (8). -/
def fullSteps : List Nat :=
  [1, 1, 1, 2, 3, 3, 4, 5, 5, 6] ++ List.replicate 45 7 ++ [8, 8]

/-- A failure oracle raising at the fourth remote call (the training
request). -/
def failAtTrain : Nat → Bool := fun k => k == 3

/-- A training CSV with a header line and 1001 data rows. -/
def bigTrainLines : List (List String) := ["E1"] :: List.replicate 1001 ["1"]

/-- The trace a run produces is an initial segment of the full script
trace: a raising remote call only cuts the script short, it never reorders
or repeats events. -/
theorem runEvents_extends (fail : Nat → Bool) :
    ∀ (l : List Event) (k : Nat), ∃ rest, (runEvents fail l k).1 ++ rest = l := by
  intro l
  induction l with
  | nil => intro k; exact ⟨[], rfl⟩
  | cons e es ih =>
    intro k
    cases e with
    | remote c =>
      by_cases h : fail k
      · exact ⟨es, by simp [runEvents, h]⟩
      · obtain ⟨rest, hr⟩ := ih (k + 1)
        exact ⟨rest, by simp [runEvents, h, hr]⟩
    | loadCsv p =>
      obtain ⟨rest, hr⟩ := ih k
      exact ⟨rest, by simp [runEvents, hr]⟩
    | display s =>
      obtain ⟨rest, hr⟩ := ih k
      exact ⟨rest, by simp [runEvents, hr]⟩
    | plotCurve l r =>
      obtain ⟨rest, hr⟩ := ih k
      exact ⟨rest, by simp [runEvents, hr]⟩
    | writeFile p s =>
      obtain ⟨rest, hr⟩ := ih k
      exact ⟨rest, by simp [runEvents, hr]⟩

/-- A run with no raised error executes every event of the script. -/
theorem runEvents_eq_of_none (fail : Nat → Bool) :
    ∀ (l : List Event) (k : Nat),
      (runEvents fail l k).2 = none → (runEvents fail l k).1 = l := by
  intro l
  induction l with
  | nil => intro k _; rfl
  | cons e es ih =>
    intro k
    cases e with
    | remote c =>
      by_cases h : fail k
      · intro hn; simp [runEvents, h] at hn
      · intro hn
        simp only [runEvents, h, if_false] at hn ⊢
        exact congrArg _ (ih (k + 1) hn)
    | loadCsv p =>
      intro hn
      simp only [runEvents] at hn ⊢
      exact congrArg _ (ih k hn)
    | display s =>
      intro hn
      simp only [runEvents] at hn ⊢
      exact congrArg _ (ih k hn)
    | plotCurve l r =>
      intro hn
      simp only [runEvents] at hn ⊢
      exact congrArg _ (ih k hn)
    | writeFile p s =>
      intro hn
      simp only [runEvents] at hn ⊢
      exact congrArg _ (ih k hn)

/-- When a run reports a raised error, the raising call is the last event
of the produced trace: nothing in the script runs after the unhandled
error. -/
theorem runEvents_last_of_some (fail : Nat → Bool) :
    ∀ (l : List Event) (k : Nat) (c : RemoteCall),
      (runEvents fail l k).2 = some c →
      ((runEvents fail l k).1).getLast? = some (Event.remote c) := by
  intro l
  induction l with
  | nil => intro k c h; simp [runEvents] at h
  | cons e es ih =>
    intro k c
    cases e with
    | remote c' =>
      by_cases h : fail k
      · intro hs
        simp only [runEvents, if_pos h] at hs ⊢
        cases hs
        rfl
      · intro hs
        simp only [runEvents, if_neg h] at hs ⊢
        have hlast := ih (k + 1) c hs
        cases hp : (runEvents fail es (k + 1)).1 with
        | nil => rw [hp] at hlast; simp at hlast
        | cons x xs => rw [hp] at hlast; rw [List.getLast?_cons_cons]; exact hlast
    | loadCsv p =>
      intro hs
      simp only [runEvents] at hs ⊢
      have hlast := ih k c hs
      cases hp : (runEvents fail es k).1 with
      | nil => rw [hp] at hlast; simp at hlast
      | cons x xs => rw [hp] at hlast; rw [List.getLast?_cons_cons]; exact hlast
    | display s =>
      intro hs
      simp only [runEvents] at hs ⊢
      have hlast := ih k c hs
      cases hp : (runEvents fail es k).1 with
      | nil => rw [hp] at hlast; simp at hlast
      | cons x xs => rw [hp] at hlast; rw [List.getLast?_cons_cons]; exact hlast
    | plotCurve l r =>
      intro hs
      simp only [runEvents] at hs ⊢
      have hlast := ih k c hs
      cases hp : (runEvents fail es k).1 with
      | nil => rw [hp] at hlast; simp at hlast
      | cons x xs => rw [hp] at hlast; rw [List.getLast?_cons_cons]; exact hlast
    | writeFile p s =>
      intro hs
      simp only [runEvents] at hs ⊢
      have hlast := ih k c hs
      cases hp : (runEvents fail es k).1 with
      | nil => rw [hp] at hlast; simp at hlast
      | cons x xs => rw [hp] at hlast; rw [List.getLast?_cons_cons]; exact hlast

/-- Each of the nine remote call sites appears exactly once in the
complete script trace. -/
theorem countKind_scriptTrace (kind : CallKind) (t e g : List (List String)) :
    countKind kind (scriptTrace t e g) = 1 := by
  cases kind <;> rfl

/-- The spec-flow step sequence of the complete script trace. -/
theorem stepList_scriptTrace (t e g : List (List String)) :
    (scriptTrace t e g).filterMap specStep = fullSteps := rfl

/-- Boolean check that a list of naturals is non-decreasing. -/
def nondecreasingB : List Nat → Bool
  | [] => true
  | [_] => true
  | a :: b :: rest => decide (a ≤ b) && nondecreasingB (b :: rest)

/-- A list passing the Boolean non-decreasing check is chained by `≤`. -/
theorem chain'_of_nondecreasingB :
    ∀ l : List Nat, nondecreasingB l = true → List.Chain' (· ≤ ·) l := by
  intro l
  induction l with
  | nil => intro _; trivial
  | cons a l ih =>
    cases l with
    | nil => intro _; simp
    | cons b rest =>
      intro h
      simp only [nondecreasingB, Bool.and_eq_true, decide_eq_true_eq] at h
      rw [List.chain'_cons]
      exact ⟨h.1, ih h.2⟩

/-- C1: the prediction request of the script returns a pair of tables
(mean, standard deviation) that are aligned by output column and by input
row: each of the two tables has exactly the declared output columns y0 up
to y(N-1), with N the number of rows of the grid file, and one row per row
of the input table passed to predict, which is the evaluation table. -/
theorem predict_result_aligned (t e g : List (List String)) :
    (df_mean e g).cols = outputs (df_grid g) ∧
    (df_std e g).cols = outputs (df_grid g) ∧
    (df_mean e g).rows.length = (df_eval e).rows.length ∧
    (df_std e g).rows.length = (df_eval e).rows.length ∧
    outputs (df_grid g) = (List.range g.length).map (fun i => "y" ++ toString i) ∧
    Event.remote (RemoteCall.predict emulator_id (df_eval e)) ∈ scriptTrace t e g := by
  refine ⟨rfl, rfl, ?_, ?_, rfl, ?_⟩
  · simp [df_mean, predictModel, df_eval]
  · simp [df_std, predictModel, df_eval]
  · simp [scriptTrace]

/-- C2 counterexample: the script does not enforce that the declared
columns exist in the uploaded table.  With a training CSV whose only
column is "a" and a one-row grid file, the declared column "E1" is not a
column of the uploaded table, yet the script still issues the training
request. -/
theorem train_columns_cex :
    columnsPresentAtTrain [["a"], ["1"]] [["300"]] = false ∧
    Event.remote (RemoteCall.train emulator_id dataset_id inputs
      (outputs (df_grid [["300"]])) trainParams) ∈
      scriptTrace [["a"], ["1"]] [] [["300"]] := by
  refine ⟨rfl, ?_⟩
  simp [scriptTrace]

/-- C2 amended: the script performs no check, so the declared input and
output columns are columns of the uploaded table exactly when the training
CSV's header already contains them; under that assumption the invariant
holds at the time the training request is issued, because the row
truncation of the upload leaves the columns unchanged. -/
theorem train_columns_of_csv_header (t g : List (List String))
    (h : (declaredColumns (df_grid g)).all
      (fun c => (readCsv t).cols.contains c) = true) :
    columnsPresentAtTrain t g = true := h

/-- C2 witness: a training CSV whose header holds all declared columns
satisfies the column invariant at train time. -/
theorem train_columns_of_csv_header_witness :
    columnsPresentAtTrain [["E1", "E2", "E3", "n1", "n2", "y0"], ["1", "2", "3", "4", "5", "6"]]
      [["300"]] = true :=
  train_columns_of_csv_header [["E1", "E2", "E3", "n1", "n2", "y0"], ["1", "2", "3", "4", "5", "6"]]
    [["300"]] (by rfl)

/-- C3: in every execution of the script, also one cut short by a raised
remote error, the remote-service and I/O events carry monotonically
non-decreasing steps of the spec's eight-step flow, and the complete
execution performs the steps 1 (three CSV loads), 2 (upload), 3 (dataset
listing and summarisation), 4 (training request), 5 (training-status
listing and summarisation), 6 (prediction), 7 (the 45 plotted curves) and
8 (the two deletions) exactly in this order. -/
theorem script_flow_order (fail : Nat → Bool) (t e g : List (List String)) :
    List.Chain' (· ≤ ·) (((runScript fail t e g).1).filterMap specStep) ∧
    (scriptTrace t e g).filterMap specStep = fullSteps := by
  refine ⟨?_, stepList_scriptTrace t e g⟩
  obtain ⟨rest, hr⟩ := runEvents_extends fail (scriptTrace t e g) 0
  have hfull : List.Chain' (· ≤ ·) ((scriptTrace t e g).filterMap specStep) := by
    rw [stepList_scriptTrace]
    exact chain'_of_nondecreasingB fullSteps (by rfl)
  rw [← hr, List.filterMap_append] at hfull
  exact hfull.left_of_append

/-- C4: remote calls are never retried and their errors are never handled:
in every execution each of the nine remote call sites is issued at most
once; when a call raises, it is the last event of the execution, so the
error propagates out of the script; when nothing raises, the script runs
in full, issuing every call site exactly once. -/
theorem remote_calls_once_and_unhandled (fail : Nat → Bool) (t e g : List (List String)) :
    (∀ kind : CallKind, countKind kind (runScript fail t e g).1 ≤ 1) ∧
    (∀ c : RemoteCall, (runScript fail t e g).2 = some c →
      ((runScript fail t e g).1).getLast? = some (Event.remote c)) ∧
    ((runScript fail t e g).2 = none → (runScript fail t e g).1 = scriptTrace t e g) ∧
    (∀ kind : CallKind, countKind kind (scriptTrace t e g) = 1) := by
  refine ⟨?_, ?_, ?_, fun kind => countKind_scriptTrace kind t e g⟩
  · intro kind
    obtain ⟨rest, hr⟩ := runEvents_extends fail (scriptTrace t e g) 0
    have hsum : countKind kind (runScript fail t e g).1 + countKind kind rest = 1 := by
      rw [← countKind_scriptTrace kind t e g, ← hr]
      simp [countKind, runScript, List.countP_append]
    omega
  · intro c h
    exact runEvents_last_of_some fail (scriptTrace t e g) 0 c h
  · intro h
    exact runEvents_eq_of_none fail (scriptTrace t e g) 0 h

/-- C4 witness: under an oracle that makes the fourth remote call (the
training request) raise, the produced trace ends at the raising training
call. -/
theorem remote_calls_once_and_unhandled_witness :
    ((runScript failAtTrain [] [] []).1).getLast? =
      some (Event.remote (RemoteCall.train emulator_id dataset_id inputs
        (outputs (df_grid [])) trainParams)) :=
  (remote_calls_once_and_unhandled failAtTrain [] [] []).2.1
    (RemoteCall.train emulator_id dataset_id inputs (outputs (df_grid [])) trainParams) rfl

/-- C5: the dataset handle is created by the upload, summarised, referenced
by its identifier in the training request, and destroyed by the explicit
delete, which is the last event of the whole script; no other event
creates or destroys the dataset. -/
theorem dataset_lifecycle (t e g : List (List String)) :
    (scriptTrace t e g).filter (datasetOp dataset_id) =
      [Event.remote (RemoteCall.uploadDataset dataset_id (df_train t)),
       Event.remote (RemoteCall.summariseDataset dataset_id),
       Event.remote (RemoteCall.train emulator_id dataset_id inputs
         (outputs (df_grid g)) trainParams),
       Event.remote (RemoteCall.deleteDataset dataset_id)] ∧
    (scriptTrace t e g).countP (createsDataset dataset_id) = 1 ∧
    (scriptTrace t e g).countP (destroysDataset dataset_id) = 1 ∧
    (scriptTrace t e g).getLast? = some (Event.remote (RemoteCall.deleteDataset dataset_id)) :=
  ⟨rfl, rfl, rfl, rfl⟩

/-- C6: the emulator handle is created by the training request against the
dataset, queried by the emulator listing and the summarisation, consumed
by the prediction request, and destroyed by the explicit delete, in this
order; the delete is the last event operating on the emulator, and no
other event creates or destroys it. -/
theorem emulator_lifecycle (t e g : List (List String)) :
    (scriptTrace t e g).filter (emulatorOp emulator_id) =
      [Event.remote (RemoteCall.train emulator_id dataset_id inputs
         (outputs (df_grid g)) trainParams),
       Event.remote RemoteCall.listEmulators,
       Event.remote (RemoteCall.summariseEmulator emulator_id),
       Event.remote (RemoteCall.predict emulator_id (df_eval e)),
       Event.remote (RemoteCall.deleteEmulator emulator_id)] ∧
    (scriptTrace t e g).countP (createsEmulator emulator_id) = 1 ∧
    (scriptTrace t e g).countP (destroysEmulator emulator_id) = 1 ∧
    ((scriptTrace t e g).filter (emulatorOp emulator_id)).getLast? =
      some (Event.remote (RemoteCall.deleteEmulator emulator_id)) :=
  ⟨rfl, rfl, rfl, rfl⟩

/-- C7: the prediction tables are ephemeral: every event of the script
that reads them is a local view (a screen display or a plotted curve),
after the prediction request no event transmits any table to the remote
service, and no event of the script ever writes a file to disk. -/
theorem predictions_ephemeral (t e g : List (List String)) :
    ((scriptTrace t e g).filter usesPrediction).all isLocalView = true ∧
    (afterPredict (scriptTrace t e g)).all
      (fun ev => (sentTables ev).isEmpty && !(writesDisk ev)) = true ∧
    (scriptTrace t e g).all (fun ev => !(writesDisk ev)) = true :=
  ⟨rfl, rfl, rfl⟩

/-- C8: the "Test data" curve of the results plot is never drawn, because
`file_eval` is built with `os.path.join` (inserting a path separator)
while the guard compares it against plain string concatenation without a
separator, so the guard is false and no execution of the script contains a
"Test data" curve event. -/
theorem test_data_curve_never_drawn :
    (plot_eval && (file_eval == emulator_dir ++ "test.csv")) = false ∧
    file_eval = "resources/campaigns/ukaea/test.csv" ∧
    emulator_dir ++ "test.csv" = "resources/campaigns/ukaeatest.csv" ∧
    resultsPlotEvents.countP isTestDataCurve = 0 ∧
    ∀ t e g : List (List String), (scriptTrace t e g).countP isTestDataCurve = 0 :=
  ⟨rfl, rfl, rfl, rfl, fun _ _ _ => rfl⟩

/-- C9: the uploaded dataset is the training CSV truncated to its first
1000 data rows: when the training CSV has more than 1000 data rows the
uploaded table holds exactly the first 1000 of them, and the only tables
the script ever transmits to the remote service are this truncated table
and the evaluation table, so the remaining training rows are never sent. -/
theorem upload_truncated_to_1000 (t e g : List (List String))
    (h : 1000 < (readCsv t).rows.length) :
    (df_train t).rows = (readCsv t).rows.take 1000 ∧
    (df_train t).rows.length = 1000 ∧
    sentToRemote (scriptTrace t e g) = [df_train t, df_eval e] := by
  refine ⟨rfl, ?_, rfl⟩
  simp only [df_train, ilocRows, List.length_take]
  omega

/-- C9 witness: a training CSV with 1001 data rows uploads exactly 1000
rows. -/
theorem upload_truncated_to_1000_witness :
    1000 < (readCsv bigTrainLines).rows.length ∧
    (df_train bigTrainLines).rows.length = 1000 := by
  have h : 1000 < (readCsv bigTrainLines).rows.length := by
    simp only [bigTrainLines, readCsv, List.tail_cons, List.length_replicate]
    omega
  exact ⟨h, (upload_truncated_to_1000 bigTrainLines [] [] h).2.1⟩

/-- C10: the declared output columns are exactly y0 up to y(N-1) where N
is the number of rows of the grid CSV read with header=None, so the number
of output columns requested from the emulator equals the number of
temperature grid points used for plotting. -/
theorem outputs_match_grid (g : List (List String)) :
    outputs (df_grid g) = (List.range g.length).map (fun i => "y" ++ toString i) ∧
    (outputs (df_grid g)).length = g.length ∧
    (plotGrid (df_grid g)).length = g.length ∧
    (outputs (df_grid g)).length = (plotGrid (df_grid g)).length := by
  refine ⟨rfl, ?_, ?_, ?_⟩ <;>
    simp [outputs, plotGrid, df_grid, readCsvNoHeader]

end FusionDemo
